import Mathlib

/-!
Shallow embedding of the cache-aware weather fetch core of the GlobalTrend
repository: `src/utils/cache_manager.py` (CacheManager) and
`src/services/weather_service.py` (WeatherService), together with theorems
checking the specification's claims about them.

Modelling conventions:
- The cache directory is a list of (file name, file content) pairs; a real
  directory has no duplicate names, so removal of a file is modelled by
  filtering out its name.
- Wall-clock instants are integers (a fixed tick unit, matching the second
  granularity of `expiry_seconds`); `datetime.now()` results are passed in
  explicitly as `now` arguments.
- A stored cache file is observed by the Python code through `json.load`,
  dictionary indexing and `datetime.fromisoformat`; `RawEntry` records the
  outcomes those observations can have: unparseable JSON, a missing
  `data` or `cached_at` field, a `cached_at` string rejected by
  `fromisoformat`, or fully valid contents.
- I/O failures that the Python code catches (a failing cache write in
  `CacheManager.set`, a failing delete in `CacheManager.clear`) are modelled
  by explicit success flags passed in by the caller of the model.
-/

namespace WeatherCache

instance {ε α : Type} [DecidableEq ε] [DecidableEq α] :
    DecidableEq (Except ε α) := fun
  | .error a, .error b =>
    if h : a = b then .isTrue (by rw [h]) else .isFalse (by simp [h])
  | .error _, .ok _ => .isFalse (by simp)
  | .ok _, .error _ => .isFalse (by simp)
  | .ok a, .ok b =>
    if h : a = b then .isTrue (by rw [h]) else .isFalse (by simp [h])

/-- The payload the cache stores; the cache treats it as opaque JSON. -/
abbrev Payload := String

/-- Outcome of reading the `cached_at` field of a stored record with
`datetime.fromisoformat`: either a valid instant, or a string the parser
rejects (`ValueError`). -/
inductive RawTime where
  | invalid
  | valid (t : Int)
deriving DecidableEq, Repr

/-- Contents of one stored cache file as `CacheManager` observes them:
`corrupt` when `json.load` fails (`JSONDecodeError`); otherwise a record
whose `data` and `cached_at` fields may each be present or absent. -/
inductive RawEntry where
  | corrupt
  | entry (dataField : Option Payload) (cachedAtField : Option RawTime)
deriving DecidableEq, Repr

/-- The cache directory: file names paired with their contents. -/
abbrev Files := List (String × RawEntry)

/-- Look up the contents of the file with the given name. -/
def lookupFile : Files → String → Option RawEntry
  | [], _ => none
  | (n, e) :: rest, name => if n = name then some e else lookupFile rest name

/-- Delete the file with the given name (`Path.unlink`). A real directory
holds each name at most once, so filtering by name removes that one file. -/
def removeFile (fs : Files) (name : String) : Files :=
  fs.filter (fun p => p.1 ≠ name)

/-- Create or overwrite the file with the given name (`open(..., 'w')`). -/
def writeFile (fs : Files) (name : String) (e : RawEntry) : Files :=
  (name, e) :: removeFile fs name

namespace CacheManager

/-- Character-level effect of the sanitisation in `_get_cache_file_path`:
`key.replace("/", "_").replace(":", "_").replace("?", "_").replace("&", "_")`.
Each of the four replacements substitutes one character by `_`, none of them
producing a character a later replacement touches, so the chain acts
independently on each character of the key. -/
def sanitizeChar (c : Char) : Char :=
  if c = '/' ∨ c = ':' ∨ c = '?' ∨ c = '&' then '_' else c

/-- The `safe_key` computed by `_get_cache_file_path`: every character of
the key passed through `sanitizeChar`. -/
def safeKey (key : String) : String :=
  String.mk (key.data.map sanitizeChar)

/-- The file name `f"{safe_key}.json"` used by `_get_cache_file_path`
(the cache directory component is the `Files` value itself). -/
def cacheFileName (key : String) : String :=
  safeKey key ++ ".json"

/-- A cache hit as returned by `CacheManager.get`: the dictionary
`{'data': ..., 'cached': True, 'cached_at': ...}` (the `cached` field is
always `True`, so it is left implicit). -/
structure CacheHit where
  data : Payload
  cached_at : Int
deriving DecidableEq, Repr

/-- Return value and resulting directory state of `CacheManager.get`. -/
structure GetResult where
  result : Option CacheHit
  files : Files
deriving DecidableEq, Repr

/-- Model of `CacheManager.get`. Mirrors the source order of observations:
existence check, `json.load`, read of `cache_data['cached_at']`,
`fromisoformat`, expiry comparison, read of `cache_data['data']`. A raised
`JSONDecodeError`/`KeyError`/`ValueError` lands in the handler that unlinks
the file and returns `None`; an expired entry is unlinked and `None`
returned; otherwise the hit dictionary is returned. -/
def get (expiry : Int) (fs : Files) (now : Int) (key : String) : GetResult :=
  let cache_file := cacheFileName key
  match lookupFile fs cache_file with
  | none => ⟨none, fs⟩
  | some .corrupt => ⟨none, removeFile fs cache_file⟩
  | some (.entry dataField cachedAtField) =>
    match cachedAtField with
    | none => ⟨none, removeFile fs cache_file⟩
    | some .invalid => ⟨none, removeFile fs cache_file⟩
    | some (.valid t) =>
      if now - t > expiry then ⟨none, removeFile fs cache_file⟩
      else
        match dataField with
        | none => ⟨none, removeFile fs cache_file⟩
        | some d => ⟨some ⟨d, t⟩, fs⟩

/-- Model of `CacheManager.set`: writes `{'data': data,
'cached_at': datetime.now().isoformat()}` to the key's file. `writeOk`
models whether the file write succeeds; on failure the exception is caught,
a warning printed, and the directory left unchanged — `set` returns
normally either way. -/
def set (fs : Files) (now : Int) (key : String) (data : Payload)
    (writeOk : Bool) : Files :=
  if writeOk then
    writeFile fs (cacheFileName key) (.entry (some data) (some (.valid now)))
  else fs

/-- Whether a file name matches the `*.json` glob pattern the bulk sweeps
iterate over, i.e. ends with `.json`. -/
def matchesJsonGlob (n : String) : Bool :=
  List.isSuffixOf ".json".data n.data

/-- Model of `CacheManager.clear`: iterates over `glob("*.json")`, unlinks
each file and counts it; a failing unlink (`delOk name = false`) is caught
and that file skipped without aborting the sweep. Returns the count and the
resulting directory. -/
def clear (delOk : String → Bool) : Files → Nat × Files
  | [] => (0, [])
  | (n, e) :: rest =>
    let r := clear delOk rest
    if matchesJsonGlob n then
      if delOk n then (r.1 + 1, r.2)
      else (r.1, (n, e) :: r.2)
    else (r.1, (n, e) :: r.2)

/-- The per-file test made by `CacheManager.clear_expired`: a file whose
read or timestamp parse raises (corrupt JSON, missing `cached_at`, bad
timestamp) is handled by the `except` branch that unlinks and counts it;
otherwise the file is deleted exactly when its age exceeds the expiry.
`clear_expired` never reads the `data` field, so its absence is not a
failure here. -/
def expiredOrUnreadable (expiry now : Int) : RawEntry → Bool
  | .corrupt => true
  | .entry _ none => true
  | .entry _ (some .invalid) => true
  | .entry _ (some (.valid t)) => decide (now - t > expiry)

/-- Model of `CacheManager.clear_expired`: iterates over `glob("*.json")`,
deleting and counting each expired or unreadable file, keeping the rest. -/
def clear_expired (expiry now : Int) : Files → Nat × Files
  | [] => (0, [])
  | (n, e) :: rest =>
    let r := clear_expired expiry now rest
    if matchesJsonGlob n then
      if expiredOrUnreadable expiry now e then (r.1 + 1, r.2)
      else (r.1, (n, e) :: r.2)
    else (r.1, (n, e) :: r.2)

end CacheManager

/-- The closed error taxonomy raised by `WeatherService._fetch_data`:
`CityNotFoundException`, `APIKeyException`, `InvalidResponseException`,
`TimeoutException`, `NetworkException`, each carrying its message. -/
inductive ErrorKind where
  | cityNotFound (msg : String)
  | apiKey (msg : String)
  | invalidResponse (msg : String)
  | timeout (msg : String)
  | network (msg : String)
deriving DecidableEq, Repr

/-- Query parameters, as the ordered key/value pairs of the Python dict. -/
abbrev Params := List (String × String)

/-- Python dict assignment `params[k] = v`: overwrite in place if the key
exists, otherwise append. -/
def setParam : Params → String → String → Params
  | [], k, v => [(k, v)]
  | (k', v') :: rest, k, v =>
    if k' = k then (k, v) :: rest else (k', v') :: setParam rest k v

/-- Python `params.get(k, dflt)`. -/
def getParamD (ps : Params) (k : String) (dflt : String) : String :=
  match ps.lookup k with
  | some v => v
  | none => dflt

namespace WeatherService

/-- Return value of `_build_url`: the URL, and the parameter dict it
mutated in place. -/
structure BuildResult where
  url : String
  params : Params
deriving DecidableEq, Repr

/-- The query string `'&'.join(f"{k}={v}" for k, v in params.items())`. -/
def queryString (ps : Params) : String :=
  String.intercalate "&" (ps.map fun p => p.1 ++ "=" ++ p.2)

/-- Model of `WeatherService._build_url`: inserts `appid` (the API key) and
`units = 'metric'` into the caller's dict in place, then formats the URL. -/
def build_url (base_url api_key endpoint : String) (params : Params) :
    BuildResult :=
  let params := setParam params "appid" api_key
  let params := setParam params "units" "metric"
  ⟨base_url ++ "/" ++ endpoint ++ "?" ++ queryString params, params⟩

/-- What the single upstream `client.get` call can produce: an
`httpx.TimeoutException`, an `httpx.NetworkError`, any other
`httpx.HTTPError`, or a response with a status code, a body text, and the
outcome of `response.json()` (`Except.error` carries the parse exception's
message). -/
inductive UpstreamResult where
  | timeout (msg : String)
  | networkError (msg : String)
  | httpError (msg : String)
  | response (status : Nat) (text : String) (json : Except String Payload)
deriving DecidableEq, Repr

/-- The dictionary `_fetch_data` returns: `{'data', 'cached', 'cached_at'}`. -/
structure FetchResult where
  data : Payload
  cached : Bool
  cached_at : Option Int
deriving DecidableEq, Repr

/-- Full outcome of one `_fetch_data` call: the returned dictionary or the
raised exception, the resulting cache directory, and the caller's parameter
dict as the call leaves it. -/
structure FetchOutcome where
  result : Except ErrorKind FetchResult
  files : Files
  params : Params
deriving DecidableEq, Repr

/-- Model of `WeatherService._fetch_data`. Checks the cache first and
returns the hit dictionary unchanged if present; otherwise builds the URL
(mutating `params`), performs the single upstream call, classifies failures
in source order (`httpx` timeout / network / other HTTP errors; then status
404, 401, non-200; then JSON parse failure), and on success caches the raw
payload (subject to `writeOk`) and returns it uncached. -/
def fetch_data (expiry : Int) (base_url api_key : String) (timeoutSecs : Int)
    (fs : Files) (now : Int) (endpoint : String) (params : Params)
    (cache_key : String) (upstream : UpstreamResult) (writeOk : Bool) :
    FetchOutcome :=
  match CacheManager.get expiry fs now cache_key with
  | ⟨some hit, fs'⟩ => ⟨.ok ⟨hit.data, true, some hit.cached_at⟩, fs', params⟩
  | ⟨none, fs'⟩ =>
    let b := build_url base_url api_key endpoint params
    match upstream with
    | .timeout e =>
      ⟨.error (.timeout ("Request timeout after " ++ toString timeoutSecs ++
        " seconds: " ++ e)), fs', b.params⟩
    | .networkError e =>
      ⟨.error (.network ("Network error occurred: " ++ e)), fs', b.params⟩
    | .httpError e =>
      ⟨.error (.network ("HTTP error occurred: " ++ e)), fs', b.params⟩
    | .response status text json =>
      if status = 404 then
        ⟨.error (.cityNotFound ("City not found: " ++
          getParamD b.params "q" (getParamD b.params "id" "unknown"))),
         fs', b.params⟩
      else if status = 401 then
        ⟨.error (.apiKey "Invalid API key"), fs', b.params⟩
      else if status ≠ 200 then
        ⟨.error (.invalidResponse ("API returned status code " ++
          toString status ++ ": " ++ text)), fs', b.params⟩
      else
        match json with
        | .error e =>
          ⟨.error (.invalidResponse ("Failed to parse JSON response: " ++ e)),
           fs', b.params⟩
        | .ok data =>
          ⟨.ok ⟨data, false, none⟩, CacheManager.set fs' now cache_key data writeOk,
           b.params⟩

end WeatherService

/-! Helper lemmas about the file-store primitives. -/

theorem lookupFile_writeFile_self (fs : Files) (n : String) (e : RawEntry) :
    lookupFile (writeFile fs n e) n = some e := by
  simp [writeFile, lookupFile]

theorem lookupFile_removeFile_self (fs : Files) (n : String) :
    lookupFile (removeFile fs n) n = none := by
  induction fs with
  | nil => rfl
  | cons p rest ih =>
    by_cases h : p.1 = n
    · simpa [removeFile, List.filter_cons, h] using ih
    · simpa [removeFile, List.filter_cons, h, lookupFile] using ih

/-- Number of directory entries carrying a given file name. -/
def countName (fs : Files) (name : String) : Nat :=
  (fs.filter (fun p => p.1 = name)).length

theorem countName_removeFile_self (fs : Files) (n : String) :
    countName (removeFile fs n) n = 0 := by
  induction fs with
  | nil => rfl
  | cons p rest ih =>
    by_cases h : p.1 = n
    · simp only [removeFile, List.filter_cons, h] at ih ⊢
      simp [countName]
    · simp only [removeFile, List.filter_cons, h] at ih ⊢
      simp [countName, h]

theorem countName_writeFile_self (fs : Files) (n : String) (e : RawEntry) :
    countName (writeFile fs n e) n = 1 := by
  have h := countName_removeFile_self fs n
  simp [writeFile, countName, List.filter_cons] at h ⊢
  exact h

/-- The record shapes whose read by `CacheManager.get` raises one of the
exceptions it catches: unparseable JSON (`JSONDecodeError`), a missing
`data` or `cached_at` field (`KeyError`), or a `cached_at` value rejected
by `fromisoformat` (`ValueError`). -/
def corruptRecord : RawEntry → Bool
  | .corrupt => true
  | .entry none _ => true
  | .entry _ none => true
  | .entry _ (some .invalid) => true
  | .entry (some _) (some (.valid _)) => false

/-- C1: `CacheManager.get` returns `None` when no entry exists (leaving the
store untouched); returns `None` and removes the key's file when the stored
record is corrupt (unparseable JSON, missing field, or bad timestamp) or
when its age `now - storedAt` exceeds the time-to-live; and returns a
fresh, parseable entry as a hit carrying its payload and its original
storage time, leaving the store untouched. -/
theorem c1_get_contract (expiry now : Int) (fs : Files) (key : String) :
    (lookupFile fs (CacheManager.cacheFileName key) = none →
      CacheManager.get expiry fs now key = ⟨none, fs⟩) ∧
    (∀ raw, lookupFile fs (CacheManager.cacheFileName key) = some raw →
      corruptRecord raw = true →
      (CacheManager.get expiry fs now key).result = none ∧
      lookupFile (CacheManager.get expiry fs now key).files
        (CacheManager.cacheFileName key) = none) ∧
    (∀ d t, lookupFile fs (CacheManager.cacheFileName key) =
        some (.entry (some d) (some (.valid t))) →
      now - t > expiry →
      (CacheManager.get expiry fs now key).result = none ∧
      lookupFile (CacheManager.get expiry fs now key).files
        (CacheManager.cacheFileName key) = none) ∧
    (∀ d t, lookupFile fs (CacheManager.cacheFileName key) =
        some (.entry (some d) (some (.valid t))) →
      ¬(now - t > expiry) →
      CacheManager.get expiry fs now key = ⟨some ⟨d, t⟩, fs⟩) := by
  refine ⟨?_, ?_, ?_, ?_⟩
  · intro h
    simp [CacheManager.get, h]
  · intro raw hlook hcorr
    rcases raw with _ | ⟨df, cf⟩
    · simp [CacheManager.get, hlook, lookupFile_removeFile_self]
    · rcases cf with _ | tf
      · simp [CacheManager.get, hlook, lookupFile_removeFile_self]
      · rcases tf with _ | t
        · simp [CacheManager.get, hlook, lookupFile_removeFile_self]
        · rcases df with _ | d
          · by_cases hexp : now - t > expiry <;>
              simp [CacheManager.get, hlook, hexp, lookupFile_removeFile_self]
          · simp [corruptRecord] at hcorr
  · intro d t hlook hexp
    simp [CacheManager.get, hlook, hexp, lookupFile_removeFile_self]
  · intro d t hlook hfresh
    simp [CacheManager.get, hlook, hfresh]

theorem c1_get_contract_witness :
    CacheManager.get 300 [("k.json", .entry (some "v") (some (.valid 10)))] 20 "k" =
      ⟨some ⟨"v", 10⟩, [("k.json", .entry (some "v") (some (.valid 10)))]⟩ :=
  (c1_get_contract 300 20 [("k.json", .entry (some "v") (some (.valid 10)))]
    "k").2.2.2 "v" 10 (by decide) (by decide)

/-- C9: at the exact time-to-live boundary the comparison is strict — an
entry whose age `now - storedAt` equals the configured expiry is still a
hit for `get`, and `clear_expired` likewise does not treat it as expired. -/
theorem c9_ttl_boundary (expiry t now : Int) (fs : Files) (key : String)
    (d : Payload)
    (hlook : lookupFile fs (CacheManager.cacheFileName key) =
      some (.entry (some d) (some (.valid t))))
    (hage : now - t = expiry) :
    CacheManager.get expiry fs now key = ⟨some ⟨d, t⟩, fs⟩ ∧
    CacheManager.expiredOrUnreadable expiry now
      (.entry (some d) (some (.valid t))) = false := by
  have hnot : ¬(now - t > expiry) := by omega
  exact ⟨by simp [CacheManager.get, hlook, hnot],
    by simp [CacheManager.expiredOrUnreadable, hnot]⟩

theorem c9_ttl_boundary_witness :
    CacheManager.get 300 [("k.json", .entry (some "v") (some (.valid 0)))] 300 "k" =
      ⟨some ⟨"v", 0⟩, [("k.json", .entry (some "v") (some (.valid 0)))]⟩ ∧
    CacheManager.expiredOrUnreadable 300 300
      (.entry (some "v") (some (.valid 0))) = false :=
  c9_ttl_boundary 300 0 300 [("k.json", .entry (some "v") (some (.valid 0)))]
    "k" "v" (by decide) (by decide)

theorem sanitizeChar_eq_self {c : Char} (h : c ∉ ['/', ':', '?', '&']) :
    CacheManager.sanitizeChar c = c := by
  simp only [List.mem_cons, List.not_mem_nil, or_false] at h
  push_neg at h
  simp [CacheManager.sanitizeChar, h.1, h.2.1, h.2.2.1, h.2.2.2]

theorem map_sanitizeChar_eq_self (l : List Char)
    (h : ∀ c ∈ l, c ∉ ['/', ':', '?', '&']) :
    l.map CacheManager.sanitizeChar = l := by
  induction l with
  | nil => rfl
  | cons c cs ih =>
    simp only [List.map_cons]
    rw [sanitizeChar_eq_self (h c (List.mem_cons_self c cs)),
        ih (fun c' hc' => h c' (List.mem_cons_of_mem c hc'))]

theorem safeKey_eq_self (k : String)
    (h : ∀ c ∈ k.data, c ∉ ['/', ':', '?', '&']) :
    CacheManager.safeKey k = k := by
  cases k with
  | mk l =>
    show String.mk (l.map CacheManager.sanitizeChar) = String.mk l
    rw [map_sanitizeChar_eq_self l h]

/-- C7 counterexample: the key encoding is not injective on all distinct
logical keys — the distinct keys "a/b" and "a:b" sanitise to the same
storage identifier "a_b". -/
theorem c7_counterexample :
    ("a/b" : String) ≠ "a:b" ∧
    CacheManager.safeKey "a/b" = CacheManager.safeKey "a:b" := by
  constructor
  · decide
  · decide

/-- C7 (amended): the key encoding is a pure, total function replacing each
occurrence of `/`, `:`, `?`, `&` with `_`; its output never contains one of
those filesystem-significant characters, and it is injective on keys that
contain none of them (for arbitrary distinct keys it can collide, see the
counterexample). -/
theorem c7_key_encoding (k k₁ k₂ : String) :
    (∀ c ∈ (CacheManager.safeKey k).data, c ∉ ['/', ':', '?', '&']) ∧
    ((∀ c ∈ k₁.data, c ∉ ['/', ':', '?', '&']) →
     (∀ c ∈ k₂.data, c ∉ ['/', ':', '?', '&']) →
     CacheManager.safeKey k₁ = CacheManager.safeKey k₂ → k₁ = k₂) := by
  constructor
  · intro c hc
    have hc' : c ∈ k.data.map CacheManager.sanitizeChar := hc
    rcases List.mem_map.mp hc' with ⟨c', _, rfl⟩
    by_cases hs : c' = '/' ∨ c' = ':' ∨ c' = '?' ∨ c' = '&'
    · have h1 : CacheManager.sanitizeChar c' = '_' := by
        simp [CacheManager.sanitizeChar, hs]
      rw [h1]
      decide
    · have h1 : CacheManager.sanitizeChar c' = c' := by
        simp [CacheManager.sanitizeChar, hs]
      rw [h1]
      push_neg at hs
      simp [hs.1, hs.2.1, hs.2.2.1, hs.2.2.2]
  · intro h₁ h₂ heq
    rw [safeKey_eq_self k₁ h₁, safeKey_eq_self k₂ h₂] at heq
    exact heq

theorem c7_key_encoding_witness :
    ("forecast_London_8" : String) = "forecast_London_8" :=
  (c7_key_encoding "x" "forecast_London_8" "forecast_London_8").2
    (by decide) (by decide) (by decide)

/-- C6: last write wins — after `set(k, v1)` then `set(k, v2)`, a `get(k)`
within the time-to-live returns `v2` with the second write's timestamp, and
after any successful `set` exactly one directory entry exists for the key's
file name. -/
theorem c6_write_replace (expiry : Int) (fs : Files) (k : String)
    (v₁ v₂ : Payload) (t₁ t₂ now : Int)
    (hfresh : ¬(now - t₂ > expiry)) :
    CacheManager.get expiry
        (CacheManager.set (CacheManager.set fs t₁ k v₁ true) t₂ k v₂ true)
        now k =
      ⟨some ⟨v₂, t₂⟩,
        CacheManager.set (CacheManager.set fs t₁ k v₁ true) t₂ k v₂ true⟩ ∧
    (∀ fs' t d, countName (CacheManager.set fs' t k d true)
        (CacheManager.cacheFileName k) = 1) := by
  constructor
  · have hl : lookupFile
        (CacheManager.set (CacheManager.set fs t₁ k v₁ true) t₂ k v₂ true)
        (CacheManager.cacheFileName k) =
        some (.entry (some v₂) (some (.valid t₂))) := by
      simp [CacheManager.set, lookupFile_writeFile_self]
    simp [CacheManager.get, hl, hfresh]
  · intro fs' t d
    simp [CacheManager.set, countName_writeFile_self]

theorem c6_write_replace_witness :
    CacheManager.get 300
        (CacheManager.set (CacheManager.set [] 0 "k" "a" true) 10 "k" "b" true)
        20 "k" =
      ⟨some ⟨"b", 10⟩,
        CacheManager.set (CacheManager.set [] 0 "k" "a" true) 10 "k" "b" true⟩ :=
  (c6_write_replace 300 [] "k" "a" "b" 0 10 20 (by decide)).1

/-- C8: on a store of five entries of which two are expired (ages 500 and
400 against a 300-second time-to-live) and three fresh, `clear_expired`
deletes exactly the two expired entries and returns 2, leaving exactly the
three fresh ones; a subsequent `clear` deletes every remaining entry
regardless of age, returns 3 and leaves zero entries; a failure deleting
one entry does not abort the sweep of the rest; and an unreadable entry
counts as expired. -/
theorem c8_bulk_eviction :
    CacheManager.clear_expired 300 1000
        [("a.json", .entry (some "pa") (some (.valid 900))),
         ("b.json", .entry (some "pb") (some (.valid 500))),
         ("c.json", .entry (some "pc") (some (.valid 950))),
         ("d.json", .entry (some "pd") (some (.valid 600))),
         ("e.json", .entry (some "pe") (some (.valid 999)))] =
      (2, [("a.json", .entry (some "pa") (some (.valid 900))),
           ("c.json", .entry (some "pc") (some (.valid 950))),
           ("e.json", .entry (some "pe") (some (.valid 999)))]) ∧
    CacheManager.clear (fun _ => true)
        [("a.json", .entry (some "pa") (some (.valid 900))),
         ("c.json", .entry (some "pc") (some (.valid 950))),
         ("e.json", .entry (some "pe") (some (.valid 999)))] = (3, []) ∧
    CacheManager.clear (fun n => !(n == "c.json"))
        [("a.json", .entry (some "pa") (some (.valid 900))),
         ("c.json", .entry (some "pc") (some (.valid 950))),
         ("e.json", .entry (some "pe") (some (.valid 999)))] =
      (2, [("c.json", .entry (some "pc") (some (.valid 950)))]) ∧
    (∀ expiry now, CacheManager.expiredOrUnreadable expiry now .corrupt = true) :=
  ⟨by decide, by decide, by decide, fun _ _ => rfl⟩

theorem get_miss_eq {expiry now : Int} {fs : Files} {key : String}
    (h : (CacheManager.get expiry fs now key).result = none) :
    ∃ fs', CacheManager.get expiry fs now key = ⟨none, fs'⟩ := by
  cases hc : CacheManager.get expiry fs now key with
  | mk r f =>
    rw [hc] at h
    dsimp only at h
    subst h
    exact ⟨f, rfl⟩

/-- The upstream outcomes `_fetch_data` treats as failures: a raised
`httpx` exception, a non-200 status, or a 200 status whose body fails to
parse as JSON. -/
def WeatherService.UpstreamResult.isFailure : WeatherService.UpstreamResult → Bool
  | .timeout _ => true
  | .networkError _ => true
  | .httpError _ => true
  | .response _ _ (.error _) => true
  | .response status _ (.ok _) => decide (status ≠ 200)

/-- C3: on a cache miss, each upstream failure is classified into exactly
one error kind, in the source's order: a timeout yields `TimeoutException`;
a transport/connection failure (and any other `httpx.HTTPError`) yields
`NetworkException`, preempting any status inspection (those exceptions
carry no response); a 404 status yields `CityNotFoundException`; a 401
status yields `APIKeyException`; any other non-200 status yields
`InvalidResponseException` with a message carrying the status and body; and
a 200 status whose body fails to parse yields `InvalidResponseException`. -/
theorem c3_error_classification (expiry : Int) (base_url api_key : String)
    (timeoutSecs : Int) (fs : Files) (now : Int) (endpoint : String)
    (params : Params) (cache_key : String) (writeOk : Bool)
    (hmiss : (CacheManager.get expiry fs now cache_key).result = none) :
    (∀ e, (WeatherService.fetch_data expiry base_url api_key timeoutSecs fs
        now endpoint params cache_key (.timeout e) writeOk).result =
      .error (.timeout ("Request timeout after " ++ toString timeoutSecs ++
        " seconds: " ++ e))) ∧
    (∀ e, (WeatherService.fetch_data expiry base_url api_key timeoutSecs fs
        now endpoint params cache_key (.networkError e) writeOk).result =
      .error (.network ("Network error occurred: " ++ e))) ∧
    (∀ e, (WeatherService.fetch_data expiry base_url api_key timeoutSecs fs
        now endpoint params cache_key (.httpError e) writeOk).result =
      .error (.network ("HTTP error occurred: " ++ e))) ∧
    (∀ text json, (WeatherService.fetch_data expiry base_url api_key
        timeoutSecs fs now endpoint params cache_key
        (.response 404 text json) writeOk).result =
      .error (.cityNotFound ("City not found: " ++
        getParamD (WeatherService.build_url base_url api_key endpoint
          params).params "q"
          (getParamD (WeatherService.build_url base_url api_key endpoint
            params).params "id" "unknown")))) ∧
    (∀ text json, (WeatherService.fetch_data expiry base_url api_key
        timeoutSecs fs now endpoint params cache_key
        (.response 401 text json) writeOk).result =
      .error (.apiKey "Invalid API key")) ∧
    (∀ status text json, status ≠ 404 → status ≠ 401 → status ≠ 200 →
      (WeatherService.fetch_data expiry base_url api_key timeoutSecs fs now
        endpoint params cache_key (.response status text json) writeOk).result =
      .error (.invalidResponse ("API returned status code " ++
        toString status ++ ": " ++ text))) ∧
    (∀ text e, (WeatherService.fetch_data expiry base_url api_key timeoutSecs
        fs now endpoint params cache_key
        (.response 200 text (.error e)) writeOk).result =
      .error (.invalidResponse ("Failed to parse JSON response: " ++ e))) := by
  obtain ⟨fs', hfs'⟩ := get_miss_eq hmiss
  refine ⟨?_, ?_, ?_, ?_, ?_, ?_, ?_⟩
  · intro e
    simp [WeatherService.fetch_data, hfs']
  · intro e
    simp [WeatherService.fetch_data, hfs']
  · intro e
    simp [WeatherService.fetch_data, hfs']
  · intro text json
    simp [WeatherService.fetch_data, hfs']
  · intro text json
    simp [WeatherService.fetch_data, hfs']
  · intro status text json h404 h401 h200
    simp [WeatherService.fetch_data, hfs', h404, h401, h200]
  · intro text e
    simp [WeatherService.fetch_data, hfs']

theorem c3_error_classification_witness :
    (WeatherService.fetch_data 300 "https://api" "KEY" 10 [] 0 "weather"
        [("q", "London")] "weather_London"
        (.response 404 "not found" (.error "no json")) true).result =
      .error (.cityNotFound ("City not found: " ++
        getParamD (WeatherService.build_url "https://api" "KEY" "weather"
          [("q", "London")]).params "q"
          (getParamD (WeatherService.build_url "https://api" "KEY" "weather"
            [("q", "London")]).params "id" "unknown"))) :=
  (c3_error_classification 300 "https://api" "KEY" 10 [] 0 "weather"
    [("q", "London")] "weather_London" true (by decide)).2.2.2.1
    "not found" (.error "no json")

theorem lookup_setParam_self (ps : Params) (k v : String) :
    (setParam ps k v).lookup k = some v := by
  induction ps with
  | nil => simp [setParam, List.lookup]
  | cons p rest ih =>
    rcases p with ⟨pk, pv⟩
    by_cases h : pk = k
    · simp [setParam, h, List.lookup]
    · have hb : (k == pk) = false := beq_eq_false_iff_ne.mpr (Ne.symm h)
      simp [setParam, h, List.lookup, hb, ih]

theorem lookup_setParam_other (ps : Params) (k k' v : String) (h : k' ≠ k) :
    (setParam ps k v).lookup k' = ps.lookup k' := by
  have hb : (k' == k) = false := beq_eq_false_iff_ne.mpr h
  induction ps with
  | nil => simp [setParam, List.lookup, hb]
  | cons p rest ih =>
    rcases p with ⟨pk, pv⟩
    by_cases hpk : pk = k
    · subst hpk
      simp [setParam, List.lookup, hb]
    · simp [setParam, hpk, List.lookup, ih]

/-- C2: a cache hit makes `_fetch_data` return the stored payload with
`cached = true` and `cached_at` equal to the original storage time, for any
upstream behaviour (no network request is made) and without touching the
store or the parameters; a miss followed by an upstream success returns the
fresh payload with `cached = false` and `cached_at = None` and writes the
raw payload under the same key; and every successfully returned
`FetchResult` satisfies `cached = false → cached_at = None` and
`cached = true → cached_at` is the hit's original storage time. -/
theorem c2_fetch_result_semantics (expiry : Int) (base_url api_key : String)
    (timeoutSecs : Int) (fs : Files) (now : Int) (endpoint : String)
    (params : Params) (cache_key : String) :
    (∀ d t, lookupFile fs (CacheManager.cacheFileName cache_key) =
        some (.entry (some d) (some (.valid t))) →
      ¬(now - t > expiry) →
      ∀ u writeOk, WeatherService.fetch_data expiry base_url api_key
          timeoutSecs fs now endpoint params cache_key u writeOk =
        ⟨.ok ⟨d, true, some t⟩, fs, params⟩) ∧
    (∀ text d, (CacheManager.get expiry fs now cache_key).result = none →
      (WeatherService.fetch_data expiry base_url api_key timeoutSecs fs now
          endpoint params cache_key (.response 200 text (.ok d)) true).result =
        .ok ⟨d, false, none⟩ ∧
      lookupFile (WeatherService.fetch_data expiry base_url api_key
          timeoutSecs fs now endpoint params cache_key
          (.response 200 text (.ok d)) true).files
        (CacheManager.cacheFileName cache_key) =
        some (.entry (some d) (some (.valid now)))) ∧
    (∀ u writeOk r,
      (WeatherService.fetch_data expiry base_url api_key timeoutSecs fs now
          endpoint params cache_key u writeOk).result = .ok r →
      (r.cached = false → r.cached_at = none) ∧
      (r.cached = true → ∃ hit,
        (CacheManager.get expiry fs now cache_key).result = some hit ∧
        r.data = hit.data ∧ r.cached_at = some hit.cached_at)) := by
  refine ⟨?_, ?_, ?_⟩
  · intro d t hlook hfresh u writeOk
    have hget : CacheManager.get expiry fs now cache_key = ⟨some ⟨d, t⟩, fs⟩ := by
      simp [CacheManager.get, hlook, hfresh]
    simp [WeatherService.fetch_data, hget]
  · intro text d hmiss
    obtain ⟨fs', hfs'⟩ := get_miss_eq hmiss
    constructor
    · simp [WeatherService.fetch_data, hfs']
    · simp [WeatherService.fetch_data, hfs', CacheManager.set,
        lookupFile_writeFile_self]
  · intro u writeOk r hr
    cases hc : CacheManager.get expiry fs now cache_key with
    | mk r0 f0 =>
      cases r0 with
      | some hit =>
        simp [WeatherService.fetch_data, hc] at hr
        subst hr
        refine ⟨fun hfalse => by simp at hfalse,
          fun _ => ⟨hit, rfl, rfl, rfl⟩⟩

      | none =>
        cases u with
        | timeout e => simp [WeatherService.fetch_data, hc] at hr
        | networkError e => simp [WeatherService.fetch_data, hc] at hr
        | httpError e => simp [WeatherService.fetch_data, hc] at hr
        | response status text json =>
          by_cases h404 : status = 404
          · simp [WeatherService.fetch_data, hc, h404] at hr
          · by_cases h401 : status = 401
            · simp [WeatherService.fetch_data, hc, h404, h401] at hr
            · by_cases h200 : status = 200
              · cases json with
                | error e =>
                  simp [WeatherService.fetch_data, hc, h404, h401, h200] at hr
                | ok d =>
                  simp [WeatherService.fetch_data, hc, h404, h401, h200] at hr
                  subst hr
                  exact ⟨fun _ => rfl, fun htrue => by simp at htrue⟩
              · simp [WeatherService.fetch_data, hc, h404, h401, h200] at hr

theorem c2_fetch_result_semantics_witness :
    WeatherService.fetch_data 300 "https://api" "KEY" 10
        [("k.json", .entry (some "v") (some (.valid 10)))] 20 "weather"
        [("q", "London")] "k" (.timeout "boom") true =
      ⟨.ok ⟨"v", true, some 10⟩,
       [("k.json", .entry (some "v") (some (.valid 10)))],
       [("q", "London")]⟩ :=
  (c2_fetch_result_semantics 300 "https://api" "KEY" 10
    [("k.json", .entry (some "v") (some (.valid 10)))] 20 "weather"
    [("q", "London")] "k").1 "v" 10 (by decide) (by decide)
    (.timeout "boom") true

/-- C4 counterexample to the claim as stated: with a corrupt entry stored
for the key, a failing fetch (upstream timeout) surfaces an error but the
cache state for that key is not what it was before the call — the lookup at
the start of the fetch already removed the corrupt file. -/
theorem c4_counterexample :
    (WeatherService.fetch_data 300 "b" "KEY" 10 [("k.json", RawEntry.corrupt)]
        0 "weather" [] "k" (.timeout "boom") true).result =
      .error (.timeout "Request timeout after 10 seconds: boom") ∧
    (WeatherService.fetch_data 300 "b" "KEY" 10 [("k.json", RawEntry.corrupt)]
        0 "weather" [] "k" (.timeout "boom") true).files = [] ∧
    ([("k.json", RawEntry.corrupt)] : Files) ≠ [] :=
  ⟨by decide, by decide, by decide⟩

/-- C4 (amended): on a cache miss whose upstream call fails, `_fetch_data`
surfaces exactly one error kind and performs no cache write: the final
cache state is exactly the state left by the initial cache lookup (that
lookup may itself have lazily removed a corrupt or expired entry for the
key, so the state is not always the pre-call state). -/
theorem c4_no_write_on_failure (expiry : Int) (base_url api_key : String)
    (timeoutSecs : Int) (fs : Files) (now : Int) (endpoint : String)
    (params : Params) (cache_key : String)
    (u : WeatherService.UpstreamResult) (writeOk : Bool)
    (hmiss : (CacheManager.get expiry fs now cache_key).result = none)
    (hfail : u.isFailure = true) :
    (∃ e, (WeatherService.fetch_data expiry base_url api_key timeoutSecs fs
        now endpoint params cache_key u writeOk).result = .error e) ∧
    (WeatherService.fetch_data expiry base_url api_key timeoutSecs fs now
        endpoint params cache_key u writeOk).files =
      (CacheManager.get expiry fs now cache_key).files := by
  obtain ⟨fs', hfs'⟩ := get_miss_eq hmiss
  rw [hfs']
  cases u with
  | timeout e =>
    exact ⟨by simp [WeatherService.fetch_data, hfs'],
      by simp [WeatherService.fetch_data, hfs']⟩
  | networkError e =>
    exact ⟨by simp [WeatherService.fetch_data, hfs'],
      by simp [WeatherService.fetch_data, hfs']⟩
  | httpError e =>
    exact ⟨by simp [WeatherService.fetch_data, hfs'],
      by simp [WeatherService.fetch_data, hfs']⟩
  | response status text json =>
    by_cases h404 : status = 404
    · exact ⟨by simp [WeatherService.fetch_data, hfs', h404],
        by simp [WeatherService.fetch_data, hfs', h404]⟩
    · by_cases h401 : status = 401
      · exact ⟨by simp [WeatherService.fetch_data, hfs', h404, h401],
          by simp [WeatherService.fetch_data, hfs', h404, h401]⟩
      · by_cases h200 : status = 200
        · cases json with
          | error e =>
            exact ⟨by simp [WeatherService.fetch_data, hfs', h404, h401,
                h200],
              by simp [WeatherService.fetch_data, hfs', h404, h401, h200]⟩
          | ok d =>
            subst h200
            simp [WeatherService.UpstreamResult.isFailure] at hfail
        · exact ⟨by simp [WeatherService.fetch_data, hfs', h404, h401,
              h200],
            by simp [WeatherService.fetch_data, hfs', h404, h401, h200]⟩

theorem c4_no_write_on_failure_witness :
    (∃ e, (WeatherService.fetch_data 300 "b" "KEY" 10 [] 0 "weather" []
        "k" (.networkError "down") true).result = .error e) ∧
    (WeatherService.fetch_data 300 "b" "KEY" 10 [] 0 "weather" [] "k"
        (.networkError "down") true).files =
      (CacheManager.get 300 [] 0 "k").files :=
  c4_no_write_on_failure 300 "b" "KEY" 10 [] 0 "weather" [] "k"
    (.networkError "down") true (by decide) (by decide)

/-- C5: a successful `set` persists the payload with the current storage
time for the key, overwriting any prior entry; a failing persistence
attempt leaves the store unchanged and `set` still returns normally (the
exception is swallowed); and a fetch whose cache write fails still returns
the freshly fetched payload successfully. -/
theorem c5_set_failure_swallowed (expiry : Int) (base_url api_key : String)
    (timeoutSecs : Int) (fs : Files) (now : Int) (endpoint : String)
    (params : Params) (cache_key : String) :
    (∀ fs' t k d, lookupFile (CacheManager.set fs' t k d true)
        (CacheManager.cacheFileName k) =
        some (.entry (some d) (some (.valid t)))) ∧
    (∀ fs' t k d, CacheManager.set fs' t k d false = fs') ∧
    (∀ text d, (CacheManager.get expiry fs now cache_key).result = none →
      (WeatherService.fetch_data expiry base_url api_key timeoutSecs fs now
          endpoint params cache_key (.response 200 text (.ok d))
          false).result = .ok ⟨d, false, none⟩) := by
  refine ⟨?_, ?_, ?_⟩
  · intro fs' t k d
    simp [CacheManager.set, lookupFile_writeFile_self]
  · intro fs' t k d
    simp [CacheManager.set]
  · intro text d hmiss
    obtain ⟨fs', hfs'⟩ := get_miss_eq hmiss
    simp [WeatherService.fetch_data, hfs']

theorem c5_set_failure_swallowed_witness :
    (WeatherService.fetch_data 300 "b" "KEY" 10 [] 0 "weather" [] "k"
        (.response 200 "body" (.ok "payload")) false).result =
      .ok ⟨"payload", false, none⟩ :=
  (c5_set_failure_swallowed 300 "b" "KEY" 10 [] 0 "weather" [] "k").2.2
    "body" "payload" (by decide)

/-- C10: on a cache miss `_fetch_data` mutates the caller's parameter dict
in place, inserting the API key under `appid` and the fixed unit selector
`metric` under `units`, and the dict the caller is left with is exactly the
mutated one; on a cache hit the dict is left unchanged. -/
theorem c10_params_mutation (expiry : Int) (base_url api_key : String)
    (timeoutSecs : Int) (fs : Files) (now : Int) (endpoint : String)
    (params : Params) (cache_key : String)
    (u : WeatherService.UpstreamResult) (writeOk : Bool) :
    ((CacheManager.get expiry fs now cache_key).result = none →
      (WeatherService.fetch_data expiry base_url api_key timeoutSecs fs now
          endpoint params cache_key u writeOk).params =
        (WeatherService.build_url base_url api_key endpoint params).params ∧
      (WeatherService.build_url base_url api_key endpoint
          params).params.lookup "appid" = some api_key ∧
      (WeatherService.build_url base_url api_key endpoint
          params).params.lookup "units" = some "metric") ∧
    (∀ d t, lookupFile fs (CacheManager.cacheFileName cache_key) =
        some (.entry (some d) (some (.valid t))) →
      ¬(now - t > expiry) →
      (WeatherService.fetch_data expiry base_url api_key timeoutSecs fs now
          endpoint params cache_key u writeOk).params = params) := by
  constructor
  · intro hmiss
    obtain ⟨fs', hfs'⟩ := get_miss_eq hmiss
    have hb : (WeatherService.build_url base_url api_key endpoint
        params).params = setParam (setParam params "appid" api_key)
        "units" "metric" := rfl
    refine ⟨?_, ?_, ?_⟩
    · cases u with
      | timeout e => simp [WeatherService.fetch_data, hfs']
      | networkError e => simp [WeatherService.fetch_data, hfs']
      | httpError e => simp [WeatherService.fetch_data, hfs']
      | response status text json =>
        cases json with
        | error e =>
          simp only [WeatherService.fetch_data, hfs']
          split_ifs <;> rfl
        | ok d =>
          simp only [WeatherService.fetch_data, hfs']
          split_ifs <;> rfl
    · rw [hb, lookup_setParam_other _ _ _ _ (by decide), lookup_setParam_self]
    · rw [hb, lookup_setParam_self]
  · intro d t hlook hfresh
    have hget : CacheManager.get expiry fs now cache_key = ⟨some ⟨d, t⟩, fs⟩ := by
      simp [CacheManager.get, hlook, hfresh]
    simp [WeatherService.fetch_data, hget]

theorem c10_params_mutation_witness :
    (WeatherService.fetch_data 300 "b" "KEY" 10 [] 0 "weather"
        [("q", "London")] "k" (.timeout "boom") true).params =
      (WeatherService.build_url "b" "KEY" "weather"
        [("q", "London")]).params ∧
    (WeatherService.build_url "b" "KEY" "weather"
        [("q", "London")]).params.lookup "appid" = some "KEY" ∧
    (WeatherService.build_url "b" "KEY" "weather"
        [("q", "London")]).params.lookup "units" = some "metric" :=
  (c10_params_mutation 300 "b" "KEY" 10 [] 0 "weather" [("q", "London")]
    "k" (.timeout "boom") true).1 (by decide)

end WeatherCache
